import Mathlib

/-!
Shallow embedding of `src/main.py` (Chenxan/split_video), a JPG video frame
extractor, together with proofs about the claims of its specification.

The program's observable behaviour is modelled as a pure function from a
video's observable properties (whether the path exists, whether OpenCV can
open it, its frame rate and its number of readable frames) and the call
arguments of `JPGVideoFrameExtractor.extract_frames` to a result record
holding the returned boolean (or the raised exception), the list of JPEG
file names written in order, the JPEG quality handed to `cv2.imwrite`, and
the diagnostic messages printed to standard output.
-/

namespace SplitVideo

/-- Python `int()` applied to a numeric value, modelled on rationals:
truncation toward zero, i.e. T-division of the numerator by the
denominator. -/
def pyInt (q : ℚ) : ℤ := Int.tdiv q.num (q.den : ℤ)

/-- Observable state of a video file, as seen through `os.path.exists`
(`pathExists`), `cap.isOpened()` (`openable`), `cap.get(cv2.CAP_PROP_FPS)`
(`fps`) and the frame count (`totalFrames`, the number of frames
`cap.read()` successfully returns, also reported by
`cv2.CAP_PROP_FRAME_COUNT`). -/
structure Video where
  pathExists : Bool
  openable : Bool
  fps : ℚ
  totalFrames : ℕ
deriving DecidableEq

/-- The diagnostic messages `extract_frames` prints to standard output. -/
inductive Msg where
  /-- 错误：视频文件不存在 (error: the video file does not exist) -/
  | errMissing : Msg
  /-- 警告：JPG质量参数应在1-100之间，使用默认值95 (warning: quality must be in 1-100, using 95) -/
  | warnQuality : Msg
  /-- 错误：无法打开视频文件 (error: cannot open the video file) -/
  | errUnopenable : Msg
  /-- 视频信息 block (resolution, fps, total frames, duration, format);
  when the reported fps is `0` the block is cut short: line 54 raises
  `ZeroDivisionError` while computing the duration, after the first lines
  of the block have been printed -/
  | infoVideo : Msg
  /-- 提取设置 block (frame interval, estimated frame count) -/
  | infoSettings : Msg
  /-- JPG分帧完成 block (saved count, output directory) -/
  | infoDone : Msg
deriving DecidableEq

/-- What a call to `extract_frames` produces instead of returning normally or
not: the boolean it returns, or the `ZeroDivisionError` raised either by the
duration print's `total_frames/original_fps` when the reported fps is `0`
(line 54), or by `total_frames // frame_interval` when the effective
`frame_interval` is `0` (line 61). -/
inductive ExtractOutcome where
  | ret : Bool → ExtractOutcome
  | zeroDivisionError : ExtractOutcome
deriving DecidableEq

/-- Everything observable about one call to `extract_frames`: the outcome,
the JPEG file names written to the output directory in order, the quality
value placed into `jpg_params` (`none` when line 70 is never reached), and
the diagnostics printed. -/
structure ExtractResult where
  outcome : ExtractOutcome
  files : List String
  qualityUsed : Option ℤ
  msgs : List Msg
deriving DecidableEq

/-- Python's `f"{n:06d}"` for a natural number: decimal digits, left-padded
with zeros to at least six characters. -/
def zeroPad6 (n : ℕ) : String :=
  let s := toString n
  if s.length < 6 then String.mk (List.replicate (6 - s.length) '0') ++ s else s

/-- The file name `f"frame_{saved_count:06d}.jpg"` of line 86. -/
def frameName (saved_count : ℕ) : String :=
  "frame_" ++ zeroPad6 saved_count ++ ".jpg"

namespace JPGVideoFrameExtractor

/-- Line 29-31: a `jpg_quality` outside `[1, 100]` is replaced by the
default `95`; in range it is kept. -/
def effectiveQuality (jpg_quality : ℤ) : ℤ :=
  if jpg_quality < 1 ∨ jpg_quality > 100 then 95 else jpg_quality

/-- The warning printed by line 30 exactly when `jpg_quality` is replaced. -/
def qualityWarn (jpg_quality : ℤ) : List Msg :=
  if jpg_quality < 1 ∨ jpg_quality > 100 then [Msg.warnQuality] else []

/-- Lines 57-59: `if target_fps and target_fps < original_fps:
frame_interval = max(1, int(original_fps / target_fps))`. A `target_fps` of
`None` or `0` is falsy and leaves `frame_interval` unchanged. -/
def effectiveInterval (original_fps : ℚ) (frame_interval : ℤ)
    (target_fps : Option ℚ) : ℤ :=
  match target_fps with
  | none => frame_interval
  | some t =>
    if t ≠ 0 ∧ t < original_fps then max 1 (pyInt (original_fps / t))
    else frame_interval

/-- Line 81's cap test `max_frames and saved_count >= max_frames`:
`max_frames` of `None` or `0` is falsy, so the test is false; otherwise
the integer comparison decides. -/
def capReached (max_frames : Option ℤ) (saved_count : ℕ) : Bool :=
  match max_frames with
  | none => false
  | some m => decide (m ≠ 0) && decide (m ≤ (saved_count : ℤ))

/-- Lines 78-95, the extraction loop. The first explicit argument is the
number of frames `cap.read()` will still deliver; `frame_count` and
`saved_count` are the loop counters; `files` accumulates the names written
so far. Each iteration reads a frame; the loop breaks when the video is
exhausted or the cap test fires, saves `frame_{saved_count:06d}.jpg` when
`frame_count % frame_interval == 0`, and increments `frame_count`.
Returns the final `saved_count` and the file list. -/
def extractLoop (frame_interval : ℕ) (max_frames : Option ℤ) :
    ℕ → ℕ → ℕ → List String → ℕ × List String
  | 0, _, saved_count, files => (saved_count, files)
  | t + 1, frame_count, saved_count, files =>
    if capReached max_frames saved_count then (saved_count, files)
    else if frame_count % frame_interval = 0 then
      extractLoop frame_interval max_frames t (frame_count + 1) (saved_count + 1)
        (files ++ [frameName saved_count])
    else
      extractLoop frame_interval max_frames t (frame_count + 1) saved_count files

/-- Lines 10-103, `JPGVideoFrameExtractor.extract_frames`. In order: the
`os.path.exists` check (early `False`), the quality validation, the
`cap.isOpened()` check (early `False`), the unguarded duration division
`total_frames/original_fps` of line 54 (raising `ZeroDivisionError` when
the video opens but reports fps `0`, before the loop and before any frame
is written), the interval override from `target_fps`, the division
`total_frames // frame_interval` of line 61 (raising `ZeroDivisionError`
when the effective interval is `0`), then the extraction loop, and
`return True`. Negative effective intervals select frames by divisibility,
as Python's `%` does, hence `natAbs`. -/
def extract_frames (v : Video) (frame_interval : ℤ) (target_fps : Option ℚ)
    (max_frames : Option ℤ) (jpg_quality : ℤ) : ExtractResult :=
  if v.pathExists = false then
    ⟨.ret false, [], none, [Msg.errMissing]⟩
  else if v.openable = false then
    ⟨.ret false, [], none, qualityWarn jpg_quality ++ [Msg.errUnopenable]⟩
  else if v.fps = 0 then
    ⟨.zeroDivisionError, [], none, qualityWarn jpg_quality ++ [Msg.infoVideo]⟩
  else if effectiveInterval v.fps frame_interval target_fps = 0 then
    ⟨.zeroDivisionError, [], none, qualityWarn jpg_quality ++ [Msg.infoVideo]⟩
  else
    ⟨.ret true,
     (extractLoop (effectiveInterval v.fps frame_interval target_fps).natAbs
        max_frames v.totalFrames 0 0 []).2,
     some (effectiveQuality jpg_quality),
     qualityWarn jpg_quality ++ [Msg.infoVideo, Msg.infoSettings, Msg.infoDone]⟩

/-- Lines 105-125, `extract_by_time_intervals`: open the video, early
`False` if it cannot be opened, otherwise delegate to `extract_frames` with
`frame_interval = max(1, int(fps * interval_seconds))`, default
`target_fps`, default `max_frames` and the given `jpg_quality`. -/
def extract_by_time_intervals (v : Video) (interval_seconds : ℚ)
    (jpg_quality : ℤ) : ExtractResult :=
  if v.openable = false then
    ⟨.ret false, [], none, [Msg.errUnopenable]⟩
  else
    extract_frames v (max 1 (pyInt (v.fps * interval_seconds))) none none
      jpg_quality

/-! ### Counting the selected frames -/

/-- The number of indices `c` in `[frame_count, frame_count + t)` with
`c % frame_interval = 0`: how many of the next `t` frames the loop's
selection test accepts. -/
def countSel (frame_interval : ℕ) : ℕ → ℕ → ℕ
  | 0, _ => 0
  | t + 1, frame_count =>
    (if frame_count % frame_interval = 0 then 1 else 0) +
      countSel frame_interval t (frame_count + 1)

lemma ceilDiv_succ (k fc : ℕ) (hk : 1 ≤ k) :
    (fc + 1 + k - 1) / k = (fc + k - 1) / k + if fc % k = 0 then 1 else 0 := by
  have h1 : fc + 1 + k - 1 = (fc + k - 1) + 1 := by omega
  rw [h1, Nat.succ_div]
  have h3 : fc + k - 1 + 1 = fc + k := by omega
  have h2 : (k ∣ fc + k - 1 + 1) ↔ (fc % k = 0) := by
    rw [h3, Nat.dvd_add_self_right, Nat.dvd_iff_mod_eq_zero]
  simp only [h2]

lemma countSel_add_div (k : ℕ) (hk : 1 ≤ k) :
    ∀ t fc, countSel k t fc + (fc + k - 1) / k = (fc + t + k - 1) / k := by
  intro t
  induction t with
  | zero => intro fc; simp [countSel]
  | succ t ih =>
    intro fc
    have hih := ih (fc + 1)
    have hstep := ceilDiv_succ k fc hk
    have harr : fc + 1 + t + k - 1 = fc + (t + 1) + k - 1 := by omega
    rw [harr] at hih
    by_cases h : fc % k = 0 <;>
      simp only [countSel, h, if_true, if_false] at hstep ⊢ <;> omega

lemma countSel_zero_start (k t : ℕ) (hk : 1 ≤ k) :
    countSel k t 0 = (t + k - 1) / k := by
  have h := countSel_add_div k hk t 0
  have h1 : 0 + t + k - 1 = t + k - 1 := by omega
  rw [h1] at h
  have h0 : (0 + k - 1) / k = 0 := Nat.div_eq_of_lt (by omega)
  omega

/-! ### Loop lemmas -/

lemma capReached_some_zero (s : ℕ) : capReached (some 0) s = false := by
  simp [capReached]

lemma capReached_pos (m : ℕ) (hm : 0 < m) (s : ℕ) :
    capReached (some (m : ℤ)) s = decide (m ≤ s) := by
  have h1 : ((m : ℤ) ≠ 0) := by exact_mod_cast hm.ne'
  simp [capReached, h1]

lemma extractLoop_fst_nocap (k : ℕ) (mf : Option ℤ)
    (hcap : ∀ s, capReached mf s = false) :
    ∀ t fc saved files,
      (extractLoop k mf t fc saved files).1 = saved + countSel k t fc := by
  intro t
  induction t with
  | zero => intro fc saved files; simp [extractLoop, countSel]
  | succ t ih =>
    intro fc saved files
    rw [extractLoop, hcap]
    by_cases h : fc % k = 0 <;> simp only [countSel, h, if_true, if_false,
      Bool.false_eq_true, ih] <;> omega

lemma extractLoop_fst_cap (k m : ℕ) (hm : 0 < m) :
    ∀ t fc saved files,
      (extractLoop k (some (m : ℤ)) t fc saved files).1
        = max saved (min (saved + countSel k t fc) m) := by
  intro t
  induction t with
  | zero => intro fc saved files; simp [extractLoop, countSel]
  | succ t ih =>
    intro fc saved files
    rw [extractLoop, capReached_pos m hm]
    by_cases hs : m ≤ saved
    · simp only [hs, decide_True, if_true, countSel]
      omega
    · by_cases h : fc % k = 0 <;>
        simp only [hs, decide_False, if_false, Bool.false_eq_true, countSel, h,
          if_true, ih] <;> omega

lemma extractLoop_snd_names (k : ℕ) (mf : Option ℤ) :
    ∀ t fc saved files, files = (List.range saved).map frameName →
      (extractLoop k mf t fc saved files).2
        = (List.range (extractLoop k mf t fc saved files).1).map frameName := by
  intro t
  induction t with
  | zero => intro fc saved files h; simpa [extractLoop] using h
  | succ t ih =>
    intro fc saved files h
    rw [extractLoop]
    by_cases hc : capReached mf saved
    · simp only [hc, if_true]
      exact h
    · by_cases hm : fc % k = 0
      · simp only [hc, hm, if_true, if_false, Bool.false_eq_true]
        exact ih (fc + 1) (saved + 1) _
          (by rw [h, List.range_succ, List.map_append]; rfl)
      · simp only [hc, hm, if_false, Bool.false_eq_true]
        exact ih (fc + 1) saved _ h

lemma extractLoop_snd_start (k : ℕ) (mf : Option ℤ) (t : ℕ) :
    (extractLoop k mf t 0 0 []).2
      = (List.range (extractLoop k mf t 0 0 []).1).map frameName :=
  extractLoop_snd_names k mf t 0 0 [] (by simp)

lemma extractLoop_length_start (k : ℕ) (mf : Option ℤ) (t : ℕ) :
    ((extractLoop k mf t 0 0 []).2).length = (extractLoop k mf t 0 0 []).1 := by
  rw [extractLoop_snd_start]
  simp

lemma extractLoop_cap_zero (k : ℕ) :
    ∀ t fc saved files,
      extractLoop k (some 0) t fc saved files
        = extractLoop k none t fc saved files := by
  intro t
  induction t with
  | zero => intro fc saved files; rfl
  | succ t ih =>
    intro fc saved files
    rw [extractLoop, extractLoop, capReached_some_zero]
    show (if capReached none saved = true then _ else _) = _
    rw [show capReached none saved = false from rfl]
    by_cases h : fc % k = 0 <;> simp only [h, if_true, if_false,
      Bool.false_eq_true, ih]

lemma extract_frames_missing (v : Video) (fi : ℤ) (t : Option ℚ)
    (mf : Option ℤ) (q : ℤ) (h : v.pathExists = false) :
    extract_frames v fi t mf q
      = ⟨ExtractOutcome.ret false, [], none, [Msg.errMissing]⟩ := by
  rw [extract_frames, if_pos h]

lemma extract_frames_unopenable (v : Video) (fi : ℤ) (t : Option ℚ)
    (mf : Option ℤ) (q : ℤ) (hex : v.pathExists = true) (h : v.openable = false) :
    extract_frames v fi t mf q
      = ⟨ExtractOutcome.ret false, [], none,
          qualityWarn q ++ [Msg.errUnopenable]⟩ := by
  rw [extract_frames, if_neg (by simp [hex]), if_pos h]

lemma extract_frames_fpszero (v : Video) (fi : ℤ) (t : Option ℚ)
    (mf : Option ℤ) (q : ℤ) (hex : v.pathExists = true) (hop : v.openable = true)
    (h : v.fps = 0) :
    extract_frames v fi t mf q
      = ⟨ExtractOutcome.zeroDivisionError, [], none,
          qualityWarn q ++ [Msg.infoVideo]⟩ := by
  rw [extract_frames, if_neg (by simp [hex]), if_neg (by simp [hop]), if_pos h]

lemma extract_frames_zerodiv (v : Video) (fi : ℤ) (t : Option ℚ)
    (mf : Option ℤ) (q : ℤ) (hex : v.pathExists = true) (hop : v.openable = true)
    (hf : ¬ (v.fps = 0)) (h : effectiveInterval v.fps fi t = 0) :
    extract_frames v fi t mf q
      = ⟨ExtractOutcome.zeroDivisionError, [], none,
          qualityWarn q ++ [Msg.infoVideo]⟩ := by
  rw [extract_frames, if_neg (by simp [hex]), if_neg (by simp [hop]), if_neg hf,
    if_pos h]

lemma extract_frames_success (v : Video) (fi : ℤ) (t : Option ℚ)
    (mf : Option ℤ) (q : ℤ) (hex : v.pathExists = true) (hop : v.openable = true)
    (hf : ¬ (v.fps = 0)) (h : ¬ (effectiveInterval v.fps fi t = 0)) :
    extract_frames v fi t mf q
      = ⟨ExtractOutcome.ret true,
         (extractLoop (effectiveInterval v.fps fi t).natAbs mf
            v.totalFrames 0 0 []).2,
         some (effectiveQuality q),
         qualityWarn q ++ [Msg.infoVideo, Msg.infoSettings, Msg.infoDone]⟩ := by
  rw [extract_frames, if_neg (by simp [hex]), if_neg (by simp [hop]), if_neg hf,
    if_neg h]

lemma effectiveQuality_bounds (q : ℤ) :
    1 ≤ effectiveQuality q ∧ effectiveQuality q ≤ 100 := by
  by_cases h : q < 1 ∨ q > 100 <;> [simp [effectiveQuality, h];
    (simp [effectiveQuality, h]; omega)]

lemma extract_frames_quality_congr (v : Video) (fi : ℤ) (t : Option ℚ)
    (mf : Option ℤ) (q₁ q₂ : ℤ)
    (h : effectiveQuality q₁ = effectiveQuality q₂) :
    (extract_frames v fi t mf q₁).outcome = (extract_frames v fi t mf q₂).outcome ∧
    (extract_frames v fi t mf q₁).files = (extract_frames v fi t mf q₂).files ∧
    (extract_frames v fi t mf q₁).qualityUsed
      = (extract_frames v fi t mf q₂).qualityUsed := by
  unfold extract_frames
  split_ifs <;> simp [h]

/-! ### The claims -/

/-- C1, counterexample: with 5 readable frames, `frame_interval = 2` and
`max_frames = 10`, the loop saves frames 0, 2 and 4, i.e. 3 frames, not
`min (5 / 2) 10 = 2`: the saved count is the ceiling of
`total_frames / frame_interval`, not the floor. -/
theorem c1_counterexample :
    ¬ ((extract_frames ⟨true, true, 30, 5⟩ 2 none (some 10) 95).files.length
        = min (5 / 2) 10) := by decide

/-- C1, amended: for an existing, openable video with `totalFrames` readable
frames, a nonzero reported fps (an openable video reporting fps `0` makes
line 54 raise `ZeroDivisionError` before the loop, saving nothing), and an
effective `frame_interval = k ≥ 1`, `extract_frames` saves exactly
`⌈totalFrames / k⌉ = (totalFrames + k - 1) / k` frames, capped by
`max_frames` when a positive `max_frames = m` is provided (the saved count
is then `min ⌈totalFrames / k⌉ m`). -/
theorem c1_saved_count_amended (v : Video) (k m q : ℤ)
    (hex : v.pathExists = true) (hop : v.openable = true) (hfps : v.fps ≠ 0)
    (hk : 1 ≤ k) (hm : 0 < m) :
    (extract_frames v k none none q).files.length
        = (v.totalFrames + k.toNat - 1) / k.toNat ∧
    (extract_frames v k none (some m) q).files.length
        = min ((v.totalFrames + k.toNat - 1) / k.toNat) m.toNat := by
  have heff : effectiveInterval v.fps k none = k := rfl
  have hk0 : ¬ (effectiveInterval v.fps k none = 0) := by rw [heff]; omega
  have hkn : 1 ≤ k.toNat := by omega
  have hnat : k.natAbs = k.toNat := by omega
  constructor
  · rw [extract_frames_success v k none none q hex hop hfps hk0]
    dsimp only
    rw [heff, hnat, extractLoop_length_start,
      extractLoop_fst_nocap k.toNat none (fun _ => rfl),
      countSel_zero_start k.toNat v.totalFrames hkn]
    omega
  · rw [extract_frames_success v k none (some m) q hex hop hfps hk0]
    dsimp only
    have hcap := extractLoop_fst_cap k.toNat m.toNat (by omega) v.totalFrames 0 0 []
    rw [Int.toNat_of_nonneg hm.le] at hcap
    rw [heff, hnat, extractLoop_length_start, hcap, Nat.zero_add,
      max_eq_right (Nat.zero_le _), countSel_zero_start k.toNat v.totalFrames hkn]

/-- C1, witness: the amended count formula evaluated on a 30 fps video with
5 frames, interval 2 and cap 2. -/
theorem c1_witness :
    (extract_frames ⟨true, true, 30, 5⟩ 2 none none 95).files.length
        = (5 + (2 : ℤ).toNat - 1) / (2 : ℤ).toNat ∧
    (extract_frames ⟨true, true, 30, 5⟩ 2 none (some 2) 95).files.length
        = min ((5 + (2 : ℤ).toNat - 1) / (2 : ℤ).toNat) (2 : ℤ).toNat :=
  c1_saved_count_amended ⟨true, true, 30, 5⟩ 2 2 95 rfl rfl (by norm_num)
    (by decide) (by decide)

/-- C2, counterexample: an invalid quality value (150) does not cause an
early `False` return: on an existing, openable 2-frame video the call
returns `True` and writes 2 frames. -/
theorem c2_counterexample :
    (extract_frames ⟨true, true, 30, 2⟩ 1 none none 150).outcome
        = ExtractOutcome.ret true ∧
    (extract_frames ⟨true, true, 30, 2⟩ 1 none none 150).files.length = 2 := by
  decide

/-- C2, amended: a missing video file and an unopenable video are each
detected by a conditional check, reported by a printed message, and cause an
early return of `False` with no frames written; an invalid quality value is
detected and reported by a printed warning but does not cause a return:
extraction proceeds exactly as with the default quality 95. -/
theorem c2_error_paths_amended :
    (∀ v fi t mf q, v.pathExists = false →
        extract_frames v fi t mf q
          = ⟨ExtractOutcome.ret false, [], none, [Msg.errMissing]⟩) ∧
    (∀ v fi t mf q, v.pathExists = true → v.openable = false →
        extract_frames v fi t mf q
          = ⟨ExtractOutcome.ret false, [], none,
              qualityWarn q ++ [Msg.errUnopenable]⟩) ∧
    (∀ v fi t mf q, q < 1 ∨ q > 100 →
        qualityWarn q = [Msg.warnQuality] ∧
        (extract_frames v fi t mf q).outcome
          = (extract_frames v fi t mf 95).outcome ∧
        (extract_frames v fi t mf q).files
          = (extract_frames v fi t mf 95).files ∧
        (extract_frames v fi t mf q).qualityUsed
          = (extract_frames v fi t mf 95).qualityUsed) := by
  refine ⟨?_, ?_, ?_⟩
  · intro v fi t mf q h
    simp [extract_frames, h]
  · intro v fi t mf q hex hop
    simp [extract_frames, hex, hop]
  · intro v fi t mf q hq
    refine ⟨by simp [qualityWarn, hq], ?_⟩
    exact extract_frames_quality_congr v fi t mf q 95
      (by simp [effectiveQuality, hq])

/-- C2, witness: the three amended error paths at concrete inputs: a missing
file, an existing but unopenable file, and quality 150. -/
theorem c2_witness :
    extract_frames ⟨false, true, 30, 5⟩ 1 none none 95
        = ⟨ExtractOutcome.ret false, [], none, [Msg.errMissing]⟩ ∧
    extract_frames ⟨true, false, 30, 5⟩ 1 none none 95
        = ⟨ExtractOutcome.ret false, [], none,
            qualityWarn 95 ++ [Msg.errUnopenable]⟩ ∧
    qualityWarn 150 = [Msg.warnQuality] :=
  ⟨c2_error_paths_amended.1 ⟨false, true, 30, 5⟩ 1 none none 95 rfl,
   c2_error_paths_amended.2.1 ⟨true, false, 30, 5⟩ 1 none none 95 rfl rfl,
   (c2_error_paths_amended.2.2 ⟨true, true, 30, 5⟩ 1 none none 150
      (by decide)).1⟩

/-- C3: every `jpg_quality` outside `[1, 100]` is replaced by the default 95
and extraction proceeds exactly as if 95 had been passed (same outcome, same
files, same quality handed to `cv2.imwrite`). -/
theorem c3_quality_fallback (v : Video) (fi : ℤ) (t : Option ℚ)
    (mf : Option ℤ) (q : ℤ) (hq : q < 1 ∨ q > 100) :
    effectiveQuality q = 95 ∧
    (extract_frames v fi t mf q).outcome = (extract_frames v fi t mf 95).outcome ∧
    (extract_frames v fi t mf q).files = (extract_frames v fi t mf 95).files ∧
    (extract_frames v fi t mf q).qualityUsed
      = (extract_frames v fi t mf 95).qualityUsed := by
  have h1 : effectiveQuality q = 95 := by simp [effectiveQuality, hq]
  exact ⟨h1, extract_frames_quality_congr v fi t mf q 95
    (by simp [effectiveQuality, hq])⟩

/-- C3, witness: quality 0 falls back to 95 on a concrete video. -/
theorem c3_witness :
    effectiveQuality 0 = 95 ∧
    (extract_frames ⟨true, true, 30, 2⟩ 1 none none 0).outcome
        = (extract_frames ⟨true, true, 30, 2⟩ 1 none none 95).outcome ∧
    (extract_frames ⟨true, true, 30, 2⟩ 1 none none 0).files
        = (extract_frames ⟨true, true, 30, 2⟩ 1 none none 95).files ∧
    (extract_frames ⟨true, true, 30, 2⟩ 1 none none 0).qualityUsed
        = (extract_frames ⟨true, true, 30, 2⟩ 1 none none 95).qualityUsed :=
  c3_quality_fallback ⟨true, true, 30, 2⟩ 1 none none 0 (by decide)

/-- C4, counterexample: `max_frames = 0` is a provided limit under which the
code still saves frames: on a 2-frame video it saves 2 > 0 frames, because
the truthiness test disables the cap. -/
theorem c4_counterexample :
    ¬ ((extract_frames ⟨true, true, 30, 2⟩ 1 none (some 0) 95).files.length
        ≤ 0) := by decide

/-- C4, amended: whenever a positive `max_frames = m` is provided, the
number of JPEG files written never exceeds `m`, and the invariant
`saved_count ≤ m` is preserved by every remaining run of the extraction
loop from any state satisfying it. -/
theorem c4_saved_le_max_amended (m : ℤ) (hm : 0 < m) :
    (∀ v fi t q, ((extract_frames v fi t (some m) q).files.length : ℤ) ≤ m) ∧
    (∀ (k tt fc saved : ℕ) (files : List String), (saved : ℤ) ≤ m →
      ((extractLoop k (some m) tt fc saved files).1 : ℤ) ≤ m) := by
  have hmm : ((m.toNat : ℤ)) = m := Int.toNat_of_nonneg hm.le
  have hloop : ∀ (k tt fc saved : ℕ) (files : List String), (saved : ℤ) ≤ m →
      ((extractLoop k (some m) tt fc saved files).1 : ℤ) ≤ m := by
    intro k tt fc saved files hs
    have h := extractLoop_fst_cap k m.toNat (by omega) tt fc saved files
    rw [hmm] at h
    rw [h]
    omega
  refine ⟨?_, hloop⟩
  intro v fi t q
  by_cases hex : v.pathExists = false
  · rw [extract_frames_missing v fi t (some m) q hex]
    simp
    omega
  · rw [Bool.not_eq_false] at hex
    by_cases hop : v.openable = false
    · rw [extract_frames_unopenable v fi t (some m) q hex hop]
      simp
      omega
    · rw [Bool.not_eq_false] at hop
      by_cases hfz : v.fps = 0
      · rw [extract_frames_fpszero v fi t (some m) q hex hop hfz]
        simp
        omega
      · by_cases hne : effectiveInterval v.fps fi t = 0
        · rw [extract_frames_zerodiv v fi t (some m) q hex hop hfz hne]
          simp
          omega
        · rw [extract_frames_success v fi t (some m) q hex hop hfz hne]
          dsimp only
          rw [extractLoop_length_start]
          exact hloop _ _ _ _ _ (by simpa using hm.le)

/-- C4, witness: with `max_frames = 1` on a 5-frame video at most one frame
is written. -/
theorem c4_witness :
    ((extract_frames ⟨true, true, 30, 5⟩ 1 none (some 1) 95).files.length : ℤ)
      ≤ 1 :=
  (c4_saved_le_max_amended 1 (by decide)).1 ⟨true, true, 30, 5⟩ 1 none 95

/-- C5: on every run of `extract_frames` the files written, in order, are
`frameName 0, frameName 1, ..., frameName (n-1)` where `n` is the number of
frames saved: zero-padded sequential indices with no gaps and no repeats. -/
theorem c5_sequential_names (v : Video) (fi : ℤ) (t : Option ℚ)
    (mf : Option ℤ) (q : ℤ) :
    (extract_frames v fi t mf q).files
      = (List.range (extract_frames v fi t mf q).files.length).map frameName := by
  by_cases hex : v.pathExists = false
  · rw [extract_frames_missing v fi t mf q hex]
    simp
  · rw [Bool.not_eq_false] at hex
    by_cases hop : v.openable = false
    · rw [extract_frames_unopenable v fi t mf q hex hop]
      simp
    · rw [Bool.not_eq_false] at hop
      by_cases hfz : v.fps = 0
      · rw [extract_frames_fpszero v fi t mf q hex hop hfz]
        simp
      · by_cases hne : effectiveInterval v.fps fi t = 0
        · rw [extract_frames_zerodiv v fi t mf q hex hop hfz hne]
          simp
        · rw [extract_frames_success v fi t mf q hex hop hfz hne]
          dsimp only
          rw [extractLoop_length_start, extractLoop_snd_start]

/-- C6: whenever the frame-writing loop is reached, the JPEG quality placed
into `jpg_params` and passed to `cv2.imwrite` lies in `[1, 100]`, whatever
`jpg_quality` was passed. -/
theorem c6_quality_in_range (v : Video) (fi : ℤ) (t : Option ℚ)
    (mf : Option ℤ) (q qq : ℤ)
    (h : (extract_frames v fi t mf q).qualityUsed = some qq) :
    1 ≤ qq ∧ qq ≤ 100 := by
  have hb := effectiveQuality_bounds q
  unfold extract_frames at h
  split_ifs at h
  all_goals simp at h
  omega

/-- C6, witness: the out-of-range quality 150 reaches the encoder as 95,
which lies in `[1, 100]`. -/
theorem c6_witness : (1 : ℤ) ≤ 95 ∧ (95 : ℤ) ≤ 100 :=
  c6_quality_in_range ⟨true, true, 30, 1⟩ 1 none none 150 95 (by decide)

/-- C7: a `target_fps` with `0 < target_fps < original_fps` overrides the
given `frame_interval` with `max 1 (int (original_fps / target_fps))`;
a `target_fps ≥ original_fps`, or an unset one, leaves `frame_interval`
unchanged. -/
theorem c7_target_fps_override (original_fps t : ℚ) (fi : ℤ) :
    (0 < t → t < original_fps →
      effectiveInterval original_fps fi (some t)
        = max 1 (pyInt (original_fps / t))) ∧
    (original_fps ≤ t → effectiveInterval original_fps fi (some t) = fi) ∧
    effectiveInterval original_fps fi none = fi := by
  refine ⟨?_, ?_, rfl⟩
  · intro h0 hlt
    have hc : t ≠ 0 ∧ t < original_fps := ⟨ne_of_gt h0, hlt⟩
    simp [effectiveInterval, hc]
  · intro hge
    have hc : ¬ (t ≠ 0 ∧ t < original_fps) := by
      intro hcon
      exact absurd hcon.2 (not_lt.mpr hge)
    simp [effectiveInterval, hc]

/-- C7, witness: `target_fps = 10` on a 30 fps video overrides interval 7;
`target_fps = 40` or no target keeps it. -/
theorem c7_witness :
    effectiveInterval 30 7 (some 10) = max 1 (pyInt (30 / 10)) ∧
    effectiveInterval 30 7 (some 40) = 7 ∧
    effectiveInterval 30 7 none = 7 :=
  ⟨(c7_target_fps_override 30 10 7).1 (by norm_num) (by norm_num),
   (c7_target_fps_override 30 40 7).2.1 (by norm_num),
   (c7_target_fps_override 30 40 7).2.2⟩

/-- C8: with `frame_interval = 0` (and no `target_fps` override) on an
existing, openable video, the unguarded division
`total_frames // frame_interval` of line 61 raises `ZeroDivisionError`
instead of returning a boolean (on a video reporting fps `0` the same
exception is raised one line earlier, at line 54's duration division). -/
theorem c8_zero_interval_raises (v : Video) (mf : Option ℤ) (q : ℤ)
    (hex : v.pathExists = true) (hop : v.openable = true) :
    (extract_frames v 0 none mf q).outcome = ExtractOutcome.zeroDivisionError := by
  by_cases hf : v.fps = 0 <;>
    simp [extract_frames, hex, hop, effectiveInterval, hf]

/-- C8, witness: the zero interval raises on a concrete 5-frame video. -/
theorem c8_witness :
    (extract_frames ⟨true, true, 30, 5⟩ 0 none none 95).outcome
        = ExtractOutcome.zeroDivisionError :=
  c8_zero_interval_raises ⟨true, true, 30, 5⟩ none 95 rfl rfl

/-- C9: passing `max_frames = 0` behaves exactly like passing no
`max_frames` at all — the truthiness test disables the cap — and in
particular on a 3-frame video with interval 1 all 3 frames are saved rather
than zero. -/
theorem c9_zero_max_frames_uncapped :
    (∀ v fi t q, extract_frames v fi t (some 0) q
        = extract_frames v fi t none q) ∧
    (extract_frames ⟨true, true, 30, 3⟩ 1 none (some 0) 95).files.length = 3 := by
  constructor
  · intro v fi t q
    unfold extract_frames
    split_ifs <;> try rfl
    rw [extractLoop_cap_zero]
  · decide

/-- C10: on an openable video, `extract_by_time_intervals` returns the same
result and writes the same files as `extract_frames` called with
`frame_interval = max 1 (int (fps * interval_seconds))`, no `target_fps`
and no `max_frames`. -/
theorem c10_time_intervals_delegates (v : Video) (interval_seconds : ℚ)
    (q : ℤ) (hop : v.openable = true) :
    extract_by_time_intervals v interval_seconds q
      = extract_frames v (max 1 (pyInt (v.fps * interval_seconds))) none none
          q := by
  simp [extract_by_time_intervals, hop]

/-- C10, witness: the delegation at a concrete openable 4-frame video. -/
theorem c10_witness :
    extract_by_time_intervals ⟨true, true, 30, 4⟩ 1 90
      = extract_frames ⟨true, true, 30, 4⟩
          (max 1 (pyInt ((⟨true, true, 30, 4⟩ : Video).fps * 1))) none none 90 :=
  c10_time_intervals_delegates ⟨true, true, 30, 4⟩ 1 90 rfl

end JPGVideoFrameExtractor

end SplitVideo
